import Mathlib

/-!
Verification of the BookWorld data-access layer (`src/services/openLibrary.ts`).

The TypeScript module is embedded shallowly: each exported async function
becomes a pure Lean function over an explicit network-outcome parameter
(describing what the `fetch` calls of that invocation observe) and an explicit
session-cache state.  JavaScript exceptions become the `Except JsError` monad;
`sessionStorage` becomes a `String`-keyed map threaded in and out of each call.
-/

/-- JavaScript error values thrown by the module.  `fetchError` embeds the
`FetchError` class (lines 5–10), `bookNotFound` embeds `BookNotFoundError`
(lines 12–17, a subclass of `FetchError`), `typeError` embeds a runtime
`TypeError`, and `networkError` embeds a rejection of `fetch` itself. -/
inductive JsError where
  | fetchError (message : String)
  | bookNotFound (workId : String)
  | typeError (message : String)
  | networkError (message : String)
deriving DecidableEq, Repr

/-- `instanceof FetchError`: `BookNotFoundError extends FetchError`, so both
constructors are instances of `FetchError`. -/
def isFetchErrorLike : JsError → Bool
  | .fetchError _ => true
  | .bookNotFound _ => true
  | .typeError _ => false
  | .networkError _ => false

/-- The `message` property of each error, as set by the constructors in
lines 5–17 of the source (for `TypeError`/network errors, the runtime text). -/
def jsErrorMessage : JsError → String
  | .fetchError m => m
  | .bookNotFound workId => s!"Book with ID \"{workId}\" not found."
  | .typeError m => m
  | .networkError m => m

/-- Target of an `authors[i].author` reference in a work record. -/
structure AuthorRefTarget where
  key : Option String := none
deriving DecidableEq, Repr

/-- One element of a work record's `authors` array. -/
structure AuthorRef where
  author : Option AuthorRefTarget := none
deriving DecidableEq, Repr

/-- The `external_links` object built in lines 107–118. -/
structure ExternalLinks where
  goodreads : Option String := none
  amazon : Option String := none
  google : Option String := none
deriving DecidableEq, Repr

/-- The `author_details` object built in lines 134–139. -/
structure AuthorDetails where
  name : String
  bio : Option String := none
  birth_date : Option String := none
  death_date : Option String := none
deriving DecidableEq, Repr

/-- The `Book` shape used by the module: search-projection fields
(`key,title,author_name,cover_i,first_publish_year`), the work record's
`authors` references, and the fields added by enrichment. -/
structure Book where
  key : Option String := none
  title : Option String := none
  author_name : Option (List String) := none
  cover_i : Option Int := none
  first_publish_year : Option Int := none
  authors : Option (List AuthorRef) := none
  external_links : Option ExternalLinks := none
  author_details : Option AuthorDetails := none
deriving DecidableEq, Repr

/-- `SearchResult` (lines 19–22): parsed body of `/search.json`. -/
structure SearchResult where
  docs : List Book
  numFound : Int
deriving DecidableEq, Repr

/-- `BrowseOptions` (lines 24–31). `limit`/`page` are JS numbers, embedded as
`Int`; every field is optional exactly as in the interface. -/
structure BrowseOptions where
  query : Option String := none
  genres : Option (List String) := none
  year : Option String := none
  sort : Option String := none
  limit : Option Int := none
  page : Option Int := none
deriving DecidableEq, Repr

/-- The `{ books, total }` pair returned by `browseBooks`. -/
structure BrowseResult where
  books : List Book
  total : Int
deriving DecidableEq, Repr

/-- An `Author` record (`{author_key}.json` body). -/
structure Author where
  name : String
  bio : Option String := none
  birth_date : Option String := none
  death_date : Option String := none
deriving DecidableEq, Repr

/-- The `identifiers` object of an edition record. -/
structure Identifiers where
  goodreads : Option (List String) := none
  amazon : Option (List String) := none
  google : Option (List String) := none
deriving DecidableEq, Repr

/-- One entry of the editions listing. -/
structure Edition where
  covers : Option (List Int) := none
  identifiers : Option Identifiers := none
deriving DecidableEq, Repr

/-- Parsed body of `/works/{id}/editions.json`; `entries` may be absent. -/
structure EditionsData where
  entries : Option (List Edition) := none
deriving DecidableEq, Repr

/-- What one `fetch` call observes: a rejection of the promise itself
(`netFail`), or a response with an HTTP status whose `json()` body either
parses (`Except.ok`) or rejects (`Except.error`). -/
inductive NetOutcome (α : Type) where
  | netFail (e : JsError)
  | resp (status : Nat) (body : Except JsError α)

/-- `Response.ok`: status in the inclusive range 200–299. -/
def respOk (status : Nat) : Bool := decide (200 ≤ status ∧ status < 300)

/-- The session cache (`sessionStorage`), restricted to this module's keys.
Values are `JSON.stringify`d `{books, total}` pairs in the source; the embedding
stores the pair itself, since the module reads them back with `JSON.parse`. -/
abbrev Cache := String → Option BrowseResult

/-- `sessionStorage.setItem` on a browse cache key. -/
def cacheSet (cache : Cache) (key : String) (v : BrowseResult) : Cache :=
  fun k => if k = key then some v else cache k

/-- Modelled from the spec: `OPEN_LIBRARY_URL` is imported from
`../constants`, a file not present under `src/`; per §6 it is the base URL of
the upstream catalog REST API.  No claim depends on its exact value. -/
def OPEN_LIBRARY_URL : String := "https://openlibrary.org"

/-! ## URL construction (lines 36–60) -/

/-- Hexadecimal digit (uppercase), for percent-encoding. -/
def hexDigit (n : Nat) : Char :=
  if n < 10 then Char.ofNat (48 + n) else Char.ofNat (55 + n)

/-- `%XX` encoding of one byte. -/
def percentByte (b : Nat) : String :=
  String.mk ['%', hexDigit (b / 16), hexDigit (b % 16)]

/-- UTF-8 bytes of a character, for percent-encoding. -/
def utf8Bytes (c : Char) : List Nat :=
  let n := c.toNat
  if n < 128 then [n]
  else if n < 2048 then [192 + n / 64, 128 + n % 64]
  else if n < 65536 then [224 + n / 4096, 128 + (n / 64) % 64, 128 + n % 64]
  else [240 + n / 262144, 128 + (n / 4096) % 64, 128 + (n / 64) % 64, 128 + n % 64]

/-- Characters `URLSearchParams` leaves unescaped
(`application/x-www-form-urlencoded`): alphanumerics and `*-._`. -/
def isUrlSafe (c : Char) : Bool :=
  decide ((65 ≤ c.toNat ∧ c.toNat ≤ 90) ∨ (97 ≤ c.toNat ∧ c.toNat ≤ 122) ∨
    (48 ≤ c.toNat ∧ c.toNat ≤ 57) ∨ c = '*' ∨ c = '-' ∨ c = '.' ∨ c = '_')

/-- Encoding of one character under `URLSearchParams` serialization. -/
def encodeChar (c : Char) : String :=
  if isUrlSafe c then String.mk [c]
  else if c = ' ' then "+"
  else String.join ((utf8Bytes c).map percentByte)

/-- `URLSearchParams` encoding of one name or value. -/
def formUrlEncode (s : String) : String :=
  String.join (s.data.map encodeChar)

/-- `URLSearchParams.toString()`: `name=value` pairs joined by `&`. -/
def serializeParams (ps : List (String × String)) : String :=
  String.intercalate "&" (ps.map fun p => formUrlEncode p.1 ++ "=" ++ formUrlEncode p.2)

/-- Line 38: `searchParams.set('q', query || '*')` — an absent or empty
query falls back to the wildcard. -/
def qParam (query : Option String) : String :=
  match query with
  | some s => if s = "" then "*" else s
  | none => "*"

/-- Lines 40–42: one appended `subject` parameter per genre, when the genres
array is present and non-empty. -/
def subjectParams (genres : Option (List String)) : List (String × String) :=
  match genres with
  | some gs => if gs.length > 0 then gs.map (fun g => ("subject", g)) else []
  | none => []

/-- Lines 44–46: `publish_year` is set when `year` is truthy (present and
non-empty). -/
def yearParams (year : Option String) : List (String × String) :=
  match year with
  | some y => if y = "" then [] else [("publish_year", y)]
  | none => []

/-- Lines 48–50: `sort` is set when present, non-empty and not `relevance`. -/
def sortParams (sort : Option String) : List (String × String) :=
  match sort with
  | some s => if s = "" then [] else if s = "relevance" then [] else [("sort", s)]
  | none => []

/-- Line 52: `offset = (page - 1) * limit`, with defaults `page = 1`,
`limit = 40` from the destructuring on line 34. -/
def browseOffset (o : BrowseOptions) : Int :=
  (o.page.getD 1 - 1) * o.limit.getD 40

/-- Lines 36–57: the `URLSearchParams` contents, in insertion order. Every
key is set at most once (only `subject` repeats, via `append`), so the
serialized order is the insertion order shown here. -/
def buildSearchParams (o : BrowseOptions) : List (String × String) :=
  [("q", qParam o.query)]
    ++ subjectParams o.genres
    ++ yearParams o.year
    ++ sortParams o.sort
    ++ [("offset", toString (browseOffset o)),
        ("language", "eng"),
        ("limit", toString (o.limit.getD 40)),
        ("fields", "key,title,author_name,cover_i,first_publish_year")]

/-- Line 59: the full request URL. -/
def requestUrl (o : BrowseOptions) : String :=
  OPEN_LIBRARY_URL ++ "/search.json?" ++ serializeParams (buildSearchParams o)

/-- Line 60: the session-cache key, the request URL under a `browse_`
namespace tag. -/
def cacheKey (o : BrowseOptions) : String :=
  "browse_" ++ requestUrl o

/-! ## browseBooks (lines 33–82) -/

/-- Line 68's filter predicate `doc => doc.key`: the document's `key` is a
truthy (present, non-empty) string. -/
def bookHasKey (b : Book) : Bool :=
  match b.key with
  | some s => s != ""
  | none => false

/-- Lines 63–72, the body of the `try` block: the fetch, the `response.ok`
check (throwing `FetchError` with the status on line 65), the body parse, and
the key filter; produces the `{books, total}` pair or the thrown error. -/
def browseAttempt (net : NetOutcome SearchResult) : Except JsError BrowseResult :=
  match net with
  | .netFail e => .error e
  | .resp status body =>
    if respOk status then
      match body with
      | .error e => .error e
      | .ok data => .ok { books := data.docs.filter bookHasKey, total := data.numFound }
    else .error (.fetchError s!"Network response was not ok, status: {status}")

/-- `browseBooks` (lines 33–82): on success the pair is cached under
`cacheKey` and returned; on any failure the cache is consulted under the same
key, serving the cached pair if present and re-throwing the original error
otherwise (lines 73–81). -/
def browseBooks (o : BrowseOptions) (net : NetOutcome SearchResult) (cache : Cache) :
    Except JsError BrowseResult × Cache :=
  let key := cacheKey o
  match browseAttempt net with
  | .ok result => (.ok result, cacheSet cache key result)
  | .error e =>
    match cache key with
    | some cached => (.ok cached, cache)
    | none => (.error e, cache)

/-! ## getBookDetails (lines 85–147) -/

/-- Lines 102–104: if the edition carries a non-empty `covers` array, its
first entry overwrites the primary record's `cover_i`. -/
def applyCover (data : Book) (edition : Edition) : Book :=
  match edition.covers with
  | some (c :: _) => { data with cover_i := some c }
  | _ => data

/-- Lines 107–118: when the edition's `identifiers` object is present, the
`external_links` object is built with one canonical URL per identifier type
whose first entry is truthy (present and non-empty); other types are omitted. -/
def buildExternalLinks (ids : Identifiers) : ExternalLinks :=
  { goodreads :=
      match ids.goodreads with
      | some (x :: _) =>
        if x = "" then none else some ("https://www.goodreads.com/book/show/" ++ x)
      | _ => none,
    amazon :=
      match ids.amazon with
      | some (x :: _) =>
        if x = "" then none else some ("https://www.amazon.com/dp/" ++ x)
      | _ => none,
    google :=
      match ids.google with
      | some (x :: _) =>
        if x = "" then none else some ("https://books.google.com/books?id=" ++ x)
      | _ => none }

/-- Lines 96–123, the edition-enrichment `try` block.  Any failure inside it —
a rejected fetch, a non-ok response, an unparsable body, or a `TypeError` from
`editionsData.entries.length` when `entries` is absent — is caught by the
`catch` on line 121 and leaves the record unchanged.  With an edition present,
the cover and the `external_links` are applied as in lines 102–118. -/
def applyEditionEnrichment (data : Book) (edNet : NetOutcome EditionsData) : Book :=
  match edNet with
  | .netFail _ => data
  | .resp status body =>
    if respOk status then
      match body with
      | .error _ => data
      | .ok editionsData =>
        match editionsData.entries with
        | some (edition :: _) =>
          let withCover := applyCover data edition
          match edition.identifiers with
          | some ids => { withCover with external_links := some (buildExternalLinks ids) }
          | none => withCover
        | _ => data
    else data

/-- Lines 127–144, the author-enrichment step.  The guard on line 127 reads
`data.authors[0].author`; when `authors` is present but empty this indexes
`undefined` and throws a `TypeError` OUTSIDE any `try`, so it propagates.
When an author reference is present, the fetch inside the `try` (lines
129–143) overwrites `author_name` and attaches `author_details` on success
and is absorbed on any failure; a non-ok response is skipped silently. -/
def authorStep (data : Book) (auNet : NetOutcome Author) : Except JsError Book :=
  match data.authors with
  | none => .ok data
  | some [] => .error (.typeError "Cannot read properties of undefined")
  | some (ref :: _) =>
    match ref.author with
    | none => .ok data
    | some _ =>
      match auNet with
      | .netFail _ => .ok data
      | .resp status body =>
        if respOk status then
          match body with
          | .error _ => .ok data
          | .ok authorData =>
            .ok { data with
                  author_name := some [authorData.name],
                  author_details := some
                    { name := authorData.name,
                      bio := authorData.bio,
                      birth_date := authorData.birth_date,
                      death_date := authorData.death_date } }
        else .ok data

/-- `getBookDetails` (lines 85–147).  `primary` is the `/works/{id}.json`
fetch: its rejection, a non-ok status (404 → `BookNotFoundError workId`,
otherwise a generic `FetchError`) and an unparsable body (line 93, outside any
`try`) all propagate.  On a parsed body the edition and author enrichment
steps run; the function never touches the session cache, which is threaded
through unchanged. -/
def getBookDetails (workId : String) (primary : NetOutcome Book)
    (edNet : NetOutcome EditionsData) (auNet : NetOutcome Author) (cache : Cache) :
    Except JsError Book × Cache :=
  match primary with
  | .netFail e => (.error e, cache)
  | .resp status body =>
    if respOk status then
      match body with
      | .error e => (.error e, cache)
      | .ok data =>
        let enriched := applyEditionEnrichment data edNet
        match authorStep enriched auNet with
        | .ok final => (.ok final, cache)
        | .error e => (.error e, cache)
    else if status = 404 then (.error (.bookNotFound workId), cache)
    else (.error (.fetchError "Failed to fetch book details from Open Library."), cache)

/-! ## Resilient category fetchers (lines 149–212) -/

/-- Observable steps of a category-fetcher run: one `browsed s` per
`browseBooks` call issued, and one `slept 250` per `await sleep(250)`. -/
inductive FetchEvent where
  | browsed (subject : String)
  | slept (ms : Nat)
deriving DecidableEq, Repr

/-- The options each fallback loop passes to `browseBooks`
(lines 158, 174, 203): `{ genres: [subject], sort: 'relevance', limit }`. -/
def categoryOpts (subject : String) (limit : Int) : BrowseOptions :=
  { genres := some [subject], sort := some "relevance", limit := some limit }

/-- The shared fallback loop of `getTrendingBooks`, `getTopRatedBooks` and
`getRandomBooks` (lines 156–164, 172–180, 201–208): each subject in turn is
browsed; a non-empty `books` is returned immediately; an empty one moves on
at once; a thrown attempt is absorbed (caught) and followed by `sleep(250)`;
exhaustion falls through to `return []`.  The second component records the
run's events in order. -/
def subjectFallbackLoop (browse : BrowseOptions → Except JsError BrowseResult)
    (limit : Int) : List String → Except JsError (List Book) × List FetchEvent
  | [] => (.ok [], [])
  | s :: rest =>
    match browse (categoryOpts s limit) with
    | .ok r =>
      if r.books.isEmpty then
        let next := subjectFallbackLoop browse limit rest
        (next.1, .browsed s :: next.2)
      else (.ok r.books, [.browsed s])
    | .error _ =>
      let next := subjectFallbackLoop browse limit rest
      (next.1, .browsed s :: .slept 250 :: next.2)

/-- Line 154: the candidate subjects for "Trending". -/
def TRENDING_FALLBACKS : List String :=
  ["love", "fiction", "thriller", "adventure", "fantasy"]

/-- Line 170: the candidate subjects for "Top Rated". -/
def TOP_RATED_FALLBACKS : List String :=
  ["history", "classic_literature", "biography", "science"]

/-- Lines 186–193: the candidate subjects for "Random". -/
def POPULAR_RANDOM_SUBJECTS : List String :=
  ["adventure", "fantasy", "science_fiction", "romance", "thriller", "mystery"]

/-- `getTrendingBooks` (lines 155–167), over the outcome function of its
`browseBooks` calls. -/
def getTrendingBooks (browse : BrowseOptions → Except JsError BrowseResult)
    (limit : Int) : Except JsError (List Book) :=
  (subjectFallbackLoop browse limit TRENDING_FALLBACKS).1

/-- `getTopRatedBooks` (lines 171–183). -/
def getTopRatedBooks (browse : BrowseOptions → Except JsError BrowseResult)
    (limit : Int) : Except JsError (List Book) :=
  (subjectFallbackLoop browse limit TOP_RATED_FALLBACKS).1

/-- Lines 196–199: the shuffle — pair each element with a random key
(`randomKey i` embeds the `Math.random()` draw for position `i`), sort the
pairs by key ascending (JS `Array.prototype.sort` is stable, embedded by a
stable merge sort), and project the elements back out.  The source list is
spread into a fresh array first, so it is never mutated. -/
def shuffledSubjects (randomKey : Nat → ℚ) (subjects : List String) : List String :=
  (((subjects.enum.map fun p => (p.2, randomKey p.1)).mergeSort
      fun a b => decide (a.2 ≤ b.2)).map Prod.fst)

/-- `getRandomBooks` (lines 194–212): the fallback loop over the shuffled
copy of `POPULAR_RANDOM_SUBJECTS`. -/
def getRandomBooks (browse : BrowseOptions → Except JsError BrowseResult)
    (randomKey : Nat → ℚ) (limit : Int) : Except JsError (List Book) :=
  (subjectFallbackLoop browse limit (shuffledSubjects randomKey POPULAR_RANDOM_SUBJECTS)).1

/-! ## Theorems -/

/-- `List.lookup` skips a prefix none of whose keys match. -/
theorem lookup_append_of_not_mem (k : String) (xs ys : List (String × String))
    (h : ∀ p ∈ xs, p.1 ≠ k) :
    List.lookup k (xs ++ ys) = List.lookup k ys := by
  induction xs with
  | nil => rfl
  | cons a t ih =>
    have ha : a.1 ≠ k := h a (List.mem_cons_self a t)
    have : (k == a.1) = false := by
      simpa [beq_iff_eq] using fun hk => ha hk.symm
    simp [List.lookup, this]
    exact ih fun p hp => h p (List.mem_cons_of_mem a hp)

/-- Every `subject` pair has key `subject`. -/
theorem mem_subjectParams_fst (genres : Option (List String)) :
    ∀ p ∈ subjectParams genres, p.1 = "subject" := by
  intro p hp
  match genres with
  | none => simp [subjectParams] at hp
  | some gs =>
    simp only [subjectParams] at hp
    split at hp
    · rcases List.mem_map.mp hp with ⟨g, -, rfl⟩
      rfl
    · simp at hp

/-- Every `publish_year` pair has key `publish_year`. -/
theorem mem_yearParams_fst (year : Option String) :
    ∀ p ∈ yearParams year, p.1 = "publish_year" := by
  intro p hp
  match year with
  | none => simp [yearParams] at hp
  | some y =>
    simp only [yearParams] at hp
    split at hp
    · simp at hp
    · rcases List.mem_singleton.mp hp with rfl
      rfl

/-- Every `sort` pair has key `sort`. -/
theorem mem_sortParams_fst (sort : Option String) :
    ∀ p ∈ sortParams sort, p.1 = "sort" := by
  intro p hp
  match sort with
  | none => simp [sortParams] at hp
  | some s =>
    simp only [sortParams] at hp
    split at hp
    · simp at hp
    · split at hp
      · simp at hp
      · rcases List.mem_singleton.mp hp with rfl
        rfl

/-- The `offset` parameter of the built query is `toString (browseOffset o)`:
no earlier parameter (`q`, `subject`, `publish_year`, `sort`) uses that name. -/
theorem lookup_offset (o : BrowseOptions) :
    List.lookup "offset" (buildSearchParams o) = some (toString (browseOffset o)) := by
  unfold buildSearchParams
  rw [List.append_assoc, List.append_assoc, List.append_assoc]
  rw [show ∀ l : List (String × String),
        [("q", qParam o.query)] ++ l = ("q", qParam o.query) :: l from fun l => rfl]
  rw [List.lookup]
  simp only [show (("offset" == "q") = false) from rfl]
  rw [lookup_append_of_not_mem, lookup_append_of_not_mem, lookup_append_of_not_mem]
  · rfl
  · intro p hp
    rw [mem_sortParams_fst o.sort p hp]
    decide
  · intro p hp
    rw [mem_yearParams_fst o.year p hp]
    decide
  · intro p hp
    rw [mem_subjectParams_fst o.genres p hp]
    decide

/-- C7: for every page number p ≥ 1 and page size L ≥ 1 supplied in
BrowseOptions, the `offset` query parameter built by `browseBooks` equals
(p − 1) × L; with the defaults (page 1, limit 40) the offset is 0. -/
theorem browse_offset_param (o : BrowseOptions) (p L : Int)
    (hp : o.page = some p) (hL : o.limit = some L) (h1 : 1 ≤ p) (h2 : 1 ≤ L) :
    List.lookup "offset" (buildSearchParams o) = some (toString ((p - 1) * L)) ∧
    List.lookup "offset" (buildSearchParams {}) = some "0" := by
  constructor
  · rw [lookup_offset o]
    unfold browseOffset
    rw [hp, hL]
    rfl
  · rfl

/-- Witness for C7 at page 3, limit 10: offset `20`; and the default offset. -/
theorem browse_offset_param_witness :
    List.lookup "offset" (buildSearchParams { page := some 3, limit := some 10 })
        = some (toString ((3 - 1) * 10 : Int)) ∧
    List.lookup "offset" (buildSearchParams {}) = some "0" :=
  browse_offset_param { page := some 3, limit := some 10 } 3 10 rfl rfl
    (by decide) (by decide)

/-- C8: on every call (i.e. for every draw of random keys), the subject list
`getRandomBooks` iterates is a permutation of the fixed candidate list
`[adventure, fantasy, science_fiction, romance, thriller, mystery]`, and that
fixed list is exactly those six subjects (the shuffle sorts a fresh copy, so
the constant itself is untouched — in this pure embedding `shuffledSubjects`
reads `POPULAR_RANDOM_SUBJECTS` without rebinding it). -/
theorem getRandomBooks_shuffle_perm (randomKey : Nat → ℚ) :
    (shuffledSubjects randomKey POPULAR_RANDOM_SUBJECTS).Perm POPULAR_RANDOM_SUBJECTS ∧
    POPULAR_RANDOM_SUBJECTS
      = ["adventure", "fantasy", "science_fiction", "romance", "thriller", "mystery"] := by
  constructor
  · unfold shuffledSubjects
    have hperm :
        ((POPULAR_RANDOM_SUBJECTS.enum.map fun p => (p.2, randomKey p.1)).mergeSort
            fun a b => decide (a.2 ≤ b.2)).Perm
          (POPULAR_RANDOM_SUBJECTS.enum.map fun p => (p.2, randomKey p.1)) :=
      List.mergeSort_perm _ _
    have := hperm.map Prod.fst
    rwa [List.map_map, show (Prod.fst ∘ fun p : Nat × String => (p.2, randomKey p.1))
          = Prod.snd from rfl, List.enum_map_snd] at this
  · rfl

/-- Witness for C8 with a constant random-key draw. -/
theorem getRandomBooks_shuffle_perm_witness :
    (shuffledSubjects (fun _ => 0) POPULAR_RANDOM_SUBJECTS).Perm POPULAR_RANDOM_SUBJECTS ∧
    POPULAR_RANDOM_SUBJECTS
      = ["adventure", "fantasy", "science_fiction", "romance", "thriller", "mystery"] :=
  getRandomBooks_shuffle_perm (fun _ => 0)

/-- On a failed attempt, `browseBooks` reduces to the cache consultation of
lines 73–81. -/
theorem browseBooks_of_attempt_error (o : BrowseOptions) (net : NetOutcome SearchResult)
    (cache : Cache) (e : JsError) (hfail : browseAttempt net = .error e) :
    browseBooks o net cache =
      match cache (cacheKey o) with
      | some cached => (.ok cached, cache)
      | none => (.error e, cache) := by
  simp only [browseBooks, hfail]

/-- C1: whenever the fetch/parse attempt of `browseBooks` fails (network
error or thrown FetchError), the call returns the session-cache entry under
the key derived from the request URL when one exists, and re-raises the
original failure when none does; the cache is untouched either way. -/
theorem browseBooks_cache_fallback (o : BrowseOptions) (net : NetOutcome SearchResult)
    (cache : Cache) (e : JsError) (hfail : browseAttempt net = .error e) :
    (∀ v, cache (cacheKey o) = some v → browseBooks o net cache = (.ok v, cache)) ∧
    (cache (cacheKey o) = none → browseBooks o net cache = (.error e, cache)) := by
  constructor
  · intro v hv
    simp [browseBooks, hfail, hv]
  · intro hnone
    simp [browseBooks, hfail, hnone]

/-- Witness for C1: a rejected fetch served from a populated cache, and the
same rejection re-raised on an empty cache. -/
theorem browseBooks_cache_fallback_witness :
    browseBooks {} (.netFail (.networkError "offline")) (fun _ => some ⟨[], 7⟩)
        = (.ok ⟨[], 7⟩, fun _ => some ⟨[], 7⟩) ∧
    browseBooks {} (.netFail (.networkError "offline")) (fun _ => none)
        = (.error (.networkError "offline"), fun _ => none) :=
  ⟨(browseBooks_cache_fallback {} (.netFail (.networkError "offline"))
      (fun _ => some ⟨[], 7⟩) (.networkError "offline") rfl).1 ⟨[], 7⟩ rfl,
   (browseBooks_cache_fallback {} (.netFail (.networkError "offline"))
      (fun _ => none) (.networkError "offline") rfl).2 rfl⟩

/-- C5: on a successful response whose body parses to `{docs, numFound}`,
`browseBooks` returns `docs` filtered to exactly the documents with a truthy
(present, non-empty) `key` — `List.filter` preserves relative order — paired
with `numFound` as `total`, and writes that same pair to the session cache
under the request-URL-derived key. -/
theorem browseBooks_success (o : BrowseOptions) (status : Nat) (data : SearchResult)
    (cache : Cache) (hok : respOk status = true) :
    browseBooks o (.resp status (.ok data)) cache
      = (.ok ⟨data.docs.filter bookHasKey, data.numFound⟩,
         cacheSet cache (cacheKey o) ⟨data.docs.filter bookHasKey, data.numFound⟩) ∧
    (∀ b : Book, bookHasKey b = true ↔ ∃ s, b.key = some s ∧ s ≠ "") := by
  constructor
  · simp [browseBooks, browseAttempt, hok]
  · intro b
    unfold bookHasKey
    match hk : b.key with
    | none => simp
    | some s => simp [ne_eq]

/-- Witness for C5: a 200 response with one keyed, one empty-keyed and one
keyless document keeps exactly the keyed one and caches the pair. -/
theorem browseBooks_success_witness :
    browseBooks {} (.resp 200 (.ok ⟨[{ key := some "/works/OL1W" }, { key := some "" }, {}], 3⟩))
        (fun _ => none)
      = (.ok ⟨[{ key := some "/works/OL1W" }], 3⟩,
         cacheSet (fun _ => none) (cacheKey {}) ⟨[{ key := some "/works/OL1W" }], 3⟩) ∧
    bookHasKey { key := some "/works/OL1W" } = true :=
  ⟨by
    have h := (browseBooks_success {} 200
        ⟨[{ key := some "/works/OL1W" }, { key := some "" }, {}], 3⟩
        (fun _ => none) rfl).1
    simpa using h,
   by
    have h := ((browseBooks_success {} 200
        ⟨[{ key := some "/works/OL1W" }, { key := some "" }, {}], 3⟩
        (fun _ => none) rfl).2 { key := some "/works/OL1W" }).mpr
        ⟨"/works/OL1W", rfl, by decide⟩
    exact h⟩

/-- C9: the request URL and cache key are a deterministic function of the
six BrowseOptions fields — two calls with identical options build identical
URLs and identical cache keys — and a fallback read only ever consumes a
cache entry stored under the key a call with the same options writes. -/
theorem browse_url_deterministic (o1 o2 : BrowseOptions)
    (hq : o1.query = o2.query) (hg : o1.genres = o2.genres) (hy : o1.year = o2.year)
    (hs : o1.sort = o2.sort) (hl : o1.limit = o2.limit) (hp : o1.page = o2.page) :
    requestUrl o1 = requestUrl o2 ∧ cacheKey o1 = cacheKey o2 ∧
    (∀ (net : NetOutcome SearchResult) (cache : Cache) (v : BrowseResult) (e : JsError),
      browseAttempt net = .error e →
      browseBooks o1 net cache = (.ok v, cache) →
      cache (cacheKey o2) = some v) := by
  have heq : o1 = o2 := by
    cases o1
    cases o2
    simp_all
  subst heq
  refine ⟨rfl, rfl, ?_⟩
  intro net cache v e hfail hcall
  rw [browseBooks_of_attempt_error o1 net cache e hfail] at hcall
  rcases hlook : cache (cacheKey o1) with _ | cached <;> rw [hlook] at hcall
  · simp at hcall
  · simp only [Prod.mk.injEq, Except.ok.injEq] at hcall
    rw [hcall.1]

/-- Witness for C9 at a concrete query, exercising the URL equality and the
fallback-consumption conjunct. -/
theorem browse_url_deterministic_witness :
    requestUrl { query := some "dune" } = requestUrl { query := some "dune" } ∧
    ((fun _ => some (⟨[], 1⟩ : BrowseResult) : Cache) (cacheKey { query := some "dune" })
      = some ⟨[], 1⟩) :=
  ⟨(browse_url_deterministic { query := some "dune" } { query := some "dune" }
      rfl rfl rfl rfl rfl rfl).1,
   (browse_url_deterministic { query := some "dune" } { query := some "dune" }
      rfl rfl rfl rfl rfl rfl).2.2
     (.netFail (.networkError "down")) (fun _ => some ⟨[], 1⟩) ⟨[], 1⟩
     (.networkError "down") rfl rfl⟩

/-- C3: a 404 on the primary fetch makes `getBookDetails` raise
`BookNotFoundError` carrying the identifier (an instance of `FetchError`,
whose message embeds the identifier); any other non-success status raises a
generic `FetchError`; and in every case the call performs no session-cache
write (the cache component of the state is returned unchanged). -/
theorem getBookDetails_not_found (workId : String) (body : Except JsError Book)
    (edNet : NetOutcome EditionsData) (auNet : NetOutcome Author) (cache : Cache) :
    getBookDetails workId (.resp 404 body) edNet auNet cache
        = (.error (.bookNotFound workId), cache) ∧
    isFetchErrorLike (.bookNotFound workId) = true ∧
    jsErrorMessage (.bookNotFound workId)
        = "Book with ID \"" ++ workId ++ "\" not found." ∧
    (∀ status : Nat, respOk status = false → status ≠ 404 →
      getBookDetails workId (.resp status body) edNet auNet cache
        = (.error (.fetchError "Failed to fetch book details from Open Library."), cache)) ∧
    (∀ primary : NetOutcome Book,
      (getBookDetails workId primary edNet auNet cache).2 = cache) := by
  refine ⟨rfl, rfl, rfl, ?_, ?_⟩
  · intro status hnok h404
    simp [getBookDetails, hnok, h404]
  · intro primary
    unfold getBookDetails
    rcases primary with e | ⟨status, body2⟩
    · rfl
    · dsimp only
      split
      · rcases body2 with e | data
        · rfl
        · dsimp only
          split <;> rfl
      · split <;> rfl

/-- Witness for C3: a 404 and a 500 on a concrete work id, over an empty
cache. -/
theorem getBookDetails_not_found_witness :
    getBookDetails "OL9999W" (.resp 404 (.ok {})) (.netFail (.networkError "d"))
        (.netFail (.networkError "d")) (fun _ => none)
      = (.error (.bookNotFound "OL9999W"), fun _ => none) ∧
    getBookDetails "OL9999W" (.resp 500 (.ok {})) (.netFail (.networkError "d"))
        (.netFail (.networkError "d")) (fun _ => none)
      = (.error (.fetchError "Failed to fetch book details from Open Library."),
         fun _ => none) :=
  ⟨(getBookDetails_not_found "OL9999W" (.ok {}) (.netFail (.networkError "d"))
      (.netFail (.networkError "d")) (fun _ => none)).1,
   (getBookDetails_not_found "OL9999W" (.ok {}) (.netFail (.networkError "d"))
      (.netFail (.networkError "d")) (fun _ => none)).2.2.2.1 500 (by decide) (by decide)⟩

/-- C2 (code bug): when the primary fetch succeeds but the work record's
`authors` array is present and EMPTY, the guard on line 127
(`data.authors && data.authors[0].author`) indexes `undefined` and throws a
`TypeError` outside every `try`, so `getBookDetails` rejects even though the
primary fetch succeeded — contradicting the spec's "enrichment failures never
fail the overall call".  Concrete run: work `OL123W`, primary 200 with body
`{authors: []}`, both auxiliary fetches rejecting. -/
theorem getBookDetails_empty_authors_raises :
    getBookDetails "OL123W" (.resp 200 (.ok { authors := some [] }))
        (.netFail (.networkError "down")) (.netFail (.networkError "down")) (fun _ => none)
      = (.error (.typeError "Cannot read properties of undefined"), fun _ => none) := rfl

/-- `applyCover` only touches `cover_i`. -/
theorem applyCover_external_links (data : Book) (e : Edition) :
    (applyCover data e).external_links = data.external_links := by
  unfold applyCover
  split <;> rfl

/-- Whether the edition-enrichment `try` block reaches the "edition found"
branch of line 100: an ok, parsed editions response with a non-empty
`entries` array. -/
def editionFound (net : NetOutcome EditionsData) : Bool :=
  match net with
  | .netFail _ => false
  | .resp status body =>
    respOk status &&
      match body with
      | .error _ => false
      | .ok ed =>
        match ed.entries with
        | some (_ :: _) => true
        | _ => false

/-- C10: after edition enrichment with a found edition, `external_links` is
present iff the edition carries an `identifiers` object (and then equals the
links built from it); each of the three supported identifier types maps to
its canonical URL built from the first identifier of that type; an
identifiers object with none of the three types yields the empty mapping;
and when the enrichment finds no edition, `external_links` stays absent.
(The mapping's keys can only be `goodreads`/`amazon`/`google`: the
`ExternalLinks` record has exactly those three optional fields, as the source
object literal assigns no others.) -/
theorem edition_external_links (data : Book) (status : Nat) (ed : EditionsData)
    (edition : Edition) (rest : List Edition) (hok : respOk status = true)
    (hentries : ed.entries = some (edition :: rest)) (habs : data.external_links = none) :
    ((applyEditionEnrichment data (.resp status (.ok ed))).external_links
        = match edition.identifiers with
          | some ids => some (buildExternalLinks ids)
          | none => none) ∧
    (∀ (ids : Identifiers) (x : String) (xs : List String),
      ids.goodreads = some (x :: xs) → x ≠ "" →
      (buildExternalLinks ids).goodreads
        = some ("https://www.goodreads.com/book/show/" ++ x)) ∧
    (∀ (ids : Identifiers) (x : String) (xs : List String),
      ids.amazon = some (x :: xs) → x ≠ "" →
      (buildExternalLinks ids).amazon = some ("https://www.amazon.com/dp/" ++ x)) ∧
    (∀ (ids : Identifiers) (x : String) (xs : List String),
      ids.google = some (x :: xs) → x ≠ "" →
      (buildExternalLinks ids).google = some ("https://books.google.com/books?id=" ++ x)) ∧
    buildExternalLinks {} = {} ∧
    (∀ edNet2 : NetOutcome EditionsData, editionFound edNet2 = false →
      (applyEditionEnrichment data edNet2).external_links = none) := by
  refine ⟨?_, ?_, ?_, ?_, rfl, ?_⟩
  · rcases hid : edition.identifiers with _ | ids <;>
      simp [applyEditionEnrichment, hok, hentries, hid, applyCover_external_links, habs]
  · intro ids x xs h hx
    simp [buildExternalLinks, h, hx]
  · intro ids x xs h hx
    simp [buildExternalLinks, h, hx]
  · intro ids x xs h hx
    simp [buildExternalLinks, h, hx]
  · intro edNet2 hnf
    rcases edNet2 with e2 | ⟨st2, body2⟩
    · exact habs
    · by_cases hok2 : respOk st2 = true
      · rcases body2 with e2 | ed2
        · simp [applyEditionEnrichment, hok2, habs]
        · rcases hent : ed2.entries with _ | l
          · simp [applyEditionEnrichment, hok2, hent, habs]
          · rcases l with _ | ⟨e0, r0⟩
            · simp [applyEditionEnrichment, hok2, hent, habs]
            · simp [editionFound, hok2, hent] at hnf
      · simp [applyEditionEnrichment, hok2, habs]

/-- Witness for C10: an edition with a goodreads identifier yields exactly
that link; a rejected editions fetch leaves `external_links` absent. -/
theorem edition_external_links_witness :
    (applyEditionEnrichment {}
        (.resp 200 (.ok ⟨some [{ identifiers := some { goodreads := some ["123"] } }]⟩))).external_links
      = some (buildExternalLinks { goodreads := some ["123"] }) ∧
    (buildExternalLinks { goodreads := some ["123"] }).goodreads
      = some ("https://www.goodreads.com/book/show/" ++ "123") ∧
    (applyEditionEnrichment {} (.netFail (.networkError "down"))).external_links = none :=
  ⟨(edition_external_links {} 200 ⟨some [{ identifiers := some { goodreads := some ["123"] } }]⟩
      { identifiers := some { goodreads := some ["123"] } } [] (by decide) rfl rfl).1,
   (edition_external_links {} 200 ⟨some [{ identifiers := some { goodreads := some ["123"] } }]⟩
      { identifiers := some { goodreads := some ["123"] } } [] (by decide) rfl rfl).2.1
      { goodreads := some ["123"] } "123" [] rfl (by decide),
   (edition_external_links {} 200 ⟨some [{ identifiers := some { goodreads := some ["123"] } }]⟩
      { identifiers := some { goodreads := some ["123"] } } [] (by decide) rfl rfl).2.2.2.2.2
      (.netFail (.networkError "down")) rfl⟩

/-- The fallback loop never produces an error: every thrown attempt is caught
by the per-subject `catch`. -/
theorem subjectFallbackLoop_never_errors
    (browse : BrowseOptions → Except JsError BrowseResult) (limit : Int)
    (subjects : List String) :
    ∃ bs, (subjectFallbackLoop browse limit subjects).1 = .ok bs := by
  induction subjects with
  | nil => exact ⟨[], rfl⟩
  | cons s rest ih =>
    unfold subjectFallbackLoop
    rcases h : browse (categoryOpts s limit) with e | r
    · simpa using ih
    · by_cases hb : r.books.isEmpty
      · simpa [hb] using ih
      · exact ⟨r.books, by simp [hb]⟩

/-- When every attempt fails or comes back empty, the loop falls through to
`return []`. -/
theorem subjectFallbackLoop_exhausted
    (browse : BrowseOptions → Except JsError BrowseResult) (limit : Int)
    (subjects : List String)
    (h : ∀ s ∈ subjects, ∀ v, browse (categoryOpts s limit) = .ok v → v.books = []) :
    (subjectFallbackLoop browse limit subjects).1 = .ok [] := by
  induction subjects with
  | nil => rfl
  | cons s rest ih =>
    unfold subjectFallbackLoop
    rcases hb : browse (categoryOpts s limit) with e | r
    · simpa using ih fun q hq => h q (List.mem_cons_of_mem s hq)
    · have hr : r.books = [] := h s (List.mem_cons_self s rest) r hb
      simpa [hr] using ih fun q hq => h q (List.mem_cons_of_mem s hq)

/-- C4: for every limit and every behavior of the underlying browse calls,
none of the three category fetchers ever produces an error — and when every
candidate subject's attempt fails or returns an empty sequence, each resolves
with the empty sequence. -/
theorem category_fetchers_never_raise
    (browse : BrowseOptions → Except JsError BrowseResult)
    (randomKey : Nat → ℚ) (limit : Int) :
    (∃ bs, getTrendingBooks browse limit = .ok bs) ∧
    (∃ bs, getTopRatedBooks browse limit = .ok bs) ∧
    (∃ bs, getRandomBooks browse randomKey limit = .ok bs) ∧
    ((∀ o v, browse o = .ok v → v.books = []) →
      getTrendingBooks browse limit = .ok [] ∧
      getTopRatedBooks browse limit = .ok [] ∧
      getRandomBooks browse randomKey limit = .ok []) := by
  refine ⟨subjectFallbackLoop_never_errors browse limit TRENDING_FALLBACKS,
    subjectFallbackLoop_never_errors browse limit TOP_RATED_FALLBACKS,
    subjectFallbackLoop_never_errors browse limit _, fun h => ?_⟩
  exact ⟨subjectFallbackLoop_exhausted browse limit _ fun s _ => h (categoryOpts s limit),
    subjectFallbackLoop_exhausted browse limit _ fun s _ => h (categoryOpts s limit),
    subjectFallbackLoop_exhausted browse limit _ fun s _ => h (categoryOpts s limit)⟩

/-- Witness for C4: every attempt rejects, and all three fetchers resolve
with the empty sequence. -/
theorem category_fetchers_never_raise_witness :
    getTrendingBooks (fun _ => .error (.networkError "down")) 20 = .ok [] ∧
    getTopRatedBooks (fun _ => .error (.networkError "down")) 20 = .ok [] ∧
    getRandomBooks (fun _ => .error (.networkError "down")) (fun _ => 0) 20 = .ok [] :=
  (category_fetchers_never_raise (fun _ => .error (.networkError "down")) (fun _ => 0) 20).2.2.2
    fun o v hv => Except.noConfusion hv

/-- The events one exhausted attempt contributes: the browse call, plus the
250 ms sleep exactly when the attempt threw (an empty result moves on with no
delay). -/
def attemptEvents (browse : BrowseOptions → Except JsError BrowseResult)
    (limit : Int) (s : String) : List FetchEvent :=
  match browse (categoryOpts s limit) with
  | .ok _ => [.browsed s]
  | .error _ => [.browsed s, .slept 250]

/-- C6: the candidate subjects are tried strictly in sequence; the loop
returns the books of the first subject whose browse call comes back
non-empty, issuing no browse call for any later subject; each earlier thrown
attempt is followed by the fixed 250 ms sleep, while each earlier empty
result proceeds directly.  The three fetchers all run this loop on their
candidate lists. -/
theorem subject_loop_first_nonempty
    (browse : BrowseOptions → Except JsError BrowseResult) (limit : Int)
    (pre : List String) (s : String) (post : List String) (r : BrowseResult)
    (hpre : ∀ p ∈ pre, ∀ v, browse (categoryOpts p limit) = .ok v → v.books = [])
    (hs : browse (categoryOpts s limit) = .ok r) (hne : r.books ≠ []) :
    subjectFallbackLoop browse limit (pre ++ s :: post)
      = (.ok r.books, (pre.map (attemptEvents browse limit)).join ++ [.browsed s]) ∧
    getTrendingBooks browse limit = (subjectFallbackLoop browse limit TRENDING_FALLBACKS).1 ∧
    getTopRatedBooks browse limit = (subjectFallbackLoop browse limit TOP_RATED_FALLBACKS).1 := by
  refine ⟨?_, rfl, rfl⟩
  induction pre with
  | nil =>
    have hb : r.books.isEmpty = false := by
      simpa [List.isEmpty_iff] using hne
    simp [subjectFallbackLoop, hs, hb]
  | cons p rest ih =>
    have hp := hpre p (List.mem_cons_self p rest)
    have ihr := ih fun q hq => hpre q (List.mem_cons_of_mem p hq)
    rcases hb : browse (categoryOpts p limit) with e | v
    · simp only [List.cons_append, subjectFallbackLoop, hb, ihr, List.map_cons,
        List.join, attemptEvents, List.cons_append]
      simp [attemptEvents, hb, ihr]
    · have hv : v.books = [] := hp v hb
      simp only [List.cons_append, subjectFallbackLoop, hb, hv, List.isEmpty_nil, ihr,
        List.map_cons, List.join]
      simp [attemptEvents, hb, hv, ihr]

/-- Witness for C6: subject `a` throws (sleep follows), `b` is empty (no
sleep), `c` is non-empty and returned, `d` is never browsed. -/
theorem subject_loop_first_nonempty_witness :
    subjectFallbackLoop
        (fun o =>
          if o.genres = some ["a"] then .error (.networkError "x")
          else if o.genres = some ["b"] then .ok ⟨[], 0⟩
          else .ok ⟨[{ key := some "k" }], 1⟩)
        20 ["a", "b", "c", "d"]
      = (.ok [{ key := some "k" }],
         [.browsed "a", .slept 250, .browsed "b", .browsed "c"]) :=
  (subject_loop_first_nonempty
      (fun o =>
        if o.genres = some ["a"] then .error (.networkError "x")
        else if o.genres = some ["b"] then .ok ⟨[], 0⟩
        else .ok ⟨[{ key := some "k" }], 1⟩)
      20 ["a", "b"] "c" ["d"] ⟨[{ key := some "k" }], 1⟩
      (by
        intro p hp v hv
        fin_cases hp
        · exact Except.noConfusion
            (show Except.error (JsError.networkError "x") = Except.ok v from hv)
        · have hv2 : Except.ok (⟨[], 0⟩ : BrowseResult) = Except.ok v := hv
          injection hv2 with h
          rw [← h])
      rfl (by decide)).1
